import Mathlib

/-!
Verification of the per-tick UAV state machine of
`src/ground-station/src/utils/uavSimulation.js`.

The embedding is a direct translation of `updateUAVState` and
`getCoverageRadius`.  Numbers are modelled as rationals.  The three
geodesy helpers (`calculateDistance`, `calculateBearing`,
`calculateNewPosition`) are transcendental floating-point functions; the
state machine only branches on comparisons of their results, so the tick
function is embedded parametrically over a `Geo` record holding them.
JavaScript `undefined` for `currentWaypointIndex` and `startPosition`
(fields the source tests with `=== undefined` / truthiness on objects) is
modelled with `Option`; numeric fields read through `x || d` are modelled
with `jsOr`, which returns the default exactly when the value is zero,
matching JavaScript falsiness for numbers.  Absent history arrays are
modelled as `[]`, which the source's `(xs || [])` reads make equivalent.
-/

/-- A latitude/longitude pair, as the `{lat, lng}` objects of the source. -/
structure Pos where
  lat : ℚ
  lng : ℚ
deriving DecidableEq

/-- A coverage sample `{position, altitude}` as pushed onto `coveragePoints`. -/
structure CoveragePoint where
  position : Pos
  altitude : ℚ
deriving DecidableEq

/-- The `status` strings the simulation branches on. -/
inductive Status where
  | idle
  | searching
  | returning
  | offline
deriving DecidableEq

/-- The route lifecycle states of the spec's data model. -/
inductive RouteStatus where
  | pending
  | active
  | completed
deriving DecidableEq

/-- The route (`searchArea`) argument of `updateUAVState`.  The tick reads
only `bounds`; `status` and `assignedVehicle` are carried to state the
frame property C10.  An absent `bounds` behaves as `[]` in the source
(`searchArea.bounds || []`). -/
structure SearchArea where
  bounds : List Pos
  status : RouteStatus
  assignedVehicle : Option ℕ
deriving DecidableEq

/-- The vehicle record, with every field `updateUAVState` reads or writes. -/
structure UAV where
  isOnline : Bool
  isMock : Bool
  status : Status
  position : Pos
  direction : ℚ
  speed : ℚ
  altitude : ℚ
  targetSpeed : ℚ
  targetAltitude : ℚ
  battery : ℚ
  currentWaypointIndex : Option ℕ
  startPosition : Option Pos
  flightPath : List Pos
  coveragePoints : List CoveragePoint
  altitudeHistory : List ℚ
  altitudeHistorySampleCounter : ℕ
deriving DecidableEq

/-- The geodesy helpers of the source (`calculateDistance`,
`calculateBearing`, `calculateNewPosition`).  They are floating-point
trigonometric functions; the state machine is verified for an arbitrary
choice of them, since it only compares their outputs. -/
structure Geo where
  calculateDistance : Pos → Pos → ℚ
  calculateBearing : Pos → Pos → ℚ
  calculateNewPosition : Pos → ℚ → ℚ → ℚ → Pos

/-- Semantics of the JavaScript expression `v || d` for a numeric `v`:
the default applies exactly when `v` is zero (the falsy number). -/
def jsOr (v d : ℚ) : ℚ := if v = 0 then d else v

/-- Dummy position for the (never taken) out-of-bounds list read. -/
def defaultPos : Pos := ⟨0, 0⟩

/-- Translation of `getCoverageRadius`: `return altitude * 0.5 || 25`. -/
def getCoverageRadius (altitude : ℚ) : ℚ :=
  jsOr (altitude * (1/2)) 25

/-- The spec's footprint radius, `max(altitude * 0.5, 25)`, written from the
spec's words to compare against `getCoverageRadius`. -/
def footprintRadiusSpec (altitude : ℚ) : ℚ :=
  max (altitude * (1/2)) 25

/-- The `status === 'searching' && searchArea` branch of `updateUAVState`
(lines 152-285 of the source). -/
def searchingStep (geo : Geo) (uav : UAV) (area : SearchArea) (deltaTime : ℚ) : UAV :=
  let targetSpeedMs := jsOr uav.targetSpeed 50 / (36/10)
  let targetAltitude := jsOr uav.targetAltitude 80
  -- `currentWaypointIndex === undefined` initializes the index to 0
  let idx0 : ℕ := uav.currentWaypointIndex.getD 0
  -- first tick starts at the target altitude; later ticks ramp at 2 m/s
  let altitude0 : ℚ :=
    match uav.currentWaypointIndex with
    | none => targetAltitude
    | some _ =>
      let currentAltitude := jsOr uav.altitude targetAltitude
      let altitudeDifference := targetAltitude - currentAltitude
      if |altitudeDifference| < 2 * deltaTime then targetAltitude
      else if altitudeDifference > 0 then currentAltitude + 2 * deltaTime
      else currentAltitude - 2 * deltaTime
  let waypoints := area.bounds
  let coveragePoints0 := uav.coveragePoints
  if idx0 < waypoints.length then
    let targetWaypoint := waypoints.getD idx0 defaultPos
    let distance := geo.calculateDistance uav.position targetWaypoint
    -- bearing is computed here for both uses; the source computes it only
    -- in the move branch, where alone it is read
    let dir := geo.calculateBearing uav.position targetWaypoint
    let idx1 := if distance < 20 then idx0 + 1 else idx0
    let direction1 := if distance < 20 then uav.direction else dir
    let position1 :=
      if distance < 20 then uav.position
      else geo.calculateNewPosition uav.position dir (jsOr targetSpeedMs 15) deltaTime
    let flightPath1 := uav.flightPath ++ [position1]
    let flightPath2 :=
      if 100 < flightPath1.length then flightPath1.drop (flightPath1.length - 100)
      else flightPath1
    -- `!uav.altitudeHistorySampleCounter` is true for 0 (falsy), so a zero
    -- counter is reset to 0 rather than incremented
    let counter1 : ℕ :=
      if uav.altitudeHistorySampleCounter = 0 then 0
      else uav.altitudeHistorySampleCounter + 1
    let altitudeHistory1 :=
      if counter1 % 5 = 0 then
        let ah := uav.altitudeHistory ++ [altitude0]
        if 8 < ah.length then ah.drop (ah.length - 8) else ah
      else uav.altitudeHistory
    let coveragePoints1 :=
      if 0 < idx1 then
        match coveragePoints0.getLast? with
        | none => coveragePoints0 ++ [⟨position1, altitude0⟩]
        | some lastPoint =>
          if getCoverageRadius altitude0 * 2 * (7/10) ≤
              geo.calculateDistance position1 lastPoint.position then
            coveragePoints0 ++ [⟨position1, altitude0⟩]
          else coveragePoints0
      else coveragePoints0
    let battery1 := max 0 (uav.battery - (1/10) * deltaTime)
    let status1 := if waypoints.length ≤ idx1 then Status.returning else uav.status
    { uav with
      currentWaypointIndex := some idx1
      speed := targetSpeedMs
      altitude := altitude0
      direction := direction1
      position := position1
      flightPath := flightPath2
      altitudeHistorySampleCounter := counter1
      altitudeHistory := altitudeHistory1
      coveragePoints := coveragePoints1
      battery := battery1
      status := status1 }
  else
    -- index at or past the end: only the unconditional assignments ran
    { uav with
      currentWaypointIndex := some idx0
      speed := targetSpeedMs
      altitude := altitude0
      coveragePoints := coveragePoints0 }

/-- The `status === 'returning'` branch of `updateUAVState`
(lines 286-341 of the source). -/
def returningStep (geo : Geo) (uav : UAV) (deltaTime : ℚ) : UAV :=
  match uav.startPosition with
  | some startPos =>
    let distance := geo.calculateDistance uav.position startPos
    if distance < 20 then
      { uav with
        status := Status.idle
        speed := 0
        altitude := 0
        position := startPos
        battery := max 0 (uav.battery - (8/100) * deltaTime) }
    else
      let returnSpeedMs := (jsOr uav.targetSpeed 50 / (36/10)) * (3/2)
      let dir := geo.calculateBearing uav.position startPos
      let alt := jsOr uav.altitude (jsOr uav.targetAltitude 80)
      let pos := geo.calculateNewPosition uav.position dir returnSpeedMs deltaTime
      let flightPath1 := uav.flightPath ++ [pos]
      let flightPath2 :=
        if 100 < flightPath1.length then flightPath1.drop (flightPath1.length - 100)
        else flightPath1
      let counter1 : ℕ :=
        if uav.altitudeHistorySampleCounter = 0 then 0
        else uav.altitudeHistorySampleCounter + 1
      let altitudeHistory1 :=
        if counter1 % 5 = 0 then
          let ah := uav.altitudeHistory ++ [alt]
          if 8 < ah.length then ah.drop (ah.length - 8) else ah
        else uav.altitudeHistory
      { uav with
        direction := dir
        speed := returnSpeedMs
        altitude := alt
        position := pos
        flightPath := flightPath2
        altitudeHistorySampleCounter := counter1
        altitudeHistory := altitudeHistory1
        battery := max 0 (uav.battery - (8/100) * deltaTime) }
  | none =>
    { uav with status := Status.idle, speed := 0 }

/-- The `status === 'idle'` branch of `updateUAVState` (lines 342-346). -/
def idleStep (uav : UAV) (deltaTime : ℚ) : UAV :=
  { uav with speed := 0, battery := max 0 (uav.battery - (1/100) * deltaTime) }

/-- The status dispatch of `updateUAVState` after the guards: the
`searching && searchArea` / `returning` / `idle` chain.  A searching
vehicle with no search area matches none of the chain's conditions. -/
def tickBody (geo : Geo) (uav : UAV) (searchArea : Option SearchArea) (deltaTime : ℚ) :
    UAV × Option SearchArea :=
  if uav.status = Status.searching then
    match searchArea with
    | some area => (searchingStep geo uav area deltaTime, searchArea)
    | none => (uav, searchArea)
  else if uav.status = Status.returning then
    (returningStep geo uav deltaTime, searchArea)
  else if uav.status = Status.idle then
    (idleStep uav deltaTime, searchArea)
  else
    (uav, searchArea)

/-- Translation of `updateUAVState(uav, searchArea, deltaTime)`.  The
source only ever writes to a copy of `uav` and never assigns to
`searchArea`; the pair threads the search-area value through every
branch so that the frame property over the route can be stated. -/
def updateUAVState (geo : Geo) (uav : UAV) (searchArea : Option SearchArea) (deltaTime : ℚ) :
    UAV × Option SearchArea :=
  if uav.isOnline = false ∨ uav.status = Status.offline then (uav, searchArea)
  else if uav.isMock = false then (uav, searchArea)
  else tickBody geo uav searchArea deltaTime

/-! Concrete instances used by witnesses and counterexamples. -/

/-- A geodesy instance whose distance is constantly zero and whose motion
is the identity; any `Geo` works for the parametric theorems, this one
makes the within-threshold branches concrete. -/
def geoZero : Geo :=
  { calculateDistance := fun _ _ => 0
    calculateBearing := fun _ _ => 0
    calculateNewPosition := fun p _ _ _ => p }

/-- A geodesy instance whose distance is constantly seven meters. -/
def geoSeven : Geo :=
  { calculateDistance := fun _ _ => 7
    calculateBearing := fun _ _ => 0
    calculateNewPosition := fun p _ _ _ => p }

/-- A fully charged online mock vehicle in `searching` before its first
tick; concrete states below are built from it. -/
def baseUAV : UAV :=
  { isOnline := true
    isMock := true
    status := Status.searching
    position := ⟨0, 0⟩
    direction := 0
    speed := 0
    altitude := 0
    targetSpeed := 0
    targetAltitude := 0
    battery := 100
    currentWaypointIndex := none
    startPosition := none
    flightPath := []
    coveragePoints := []
    altitudeHistory := []
    altitudeHistorySampleCounter := 0 }

/-! Shared helper lemmas about the battery field of the three steps. -/

theorem max_drain_le (b r : ℚ) (hb : 0 ≤ b) (hr : 0 ≤ r) : max 0 (b - r) ≤ b :=
  max_le hb (by linarith)

theorem max_drain_nonneg (b r : ℚ) : 0 ≤ max 0 (b - r) :=
  le_max_left 0 _

theorem max_drain_lt (b r : ℚ) (hb : 0 < b) (hr : 0 < r) : max 0 (b - r) < b :=
  max_lt hb (by linarith)

/-- The searching branch either leaves the battery alone (no waypoint in
range of the index) or drains it at the searching rate. -/
theorem searchingStep_battery (geo : Geo) (uav : UAV) (area : SearchArea) (dt : ℚ) :
    (searchingStep geo uav area dt).battery = uav.battery ∨
    (searchingStep geo uav area dt).battery = max 0 (uav.battery - (1/10) * dt) := by
  unfold searchingStep
  by_cases h : uav.currentWaypointIndex.getD 0 < area.bounds.length
  · right; simp only [h, if_true]
  · left; simp only [h, if_false]

/-- With the (initialized) waypoint index inside the bounds list, the
searching branch drains the battery at the searching rate. -/
theorem searchingStep_battery_drain (geo : Geo) (uav : UAV) (area : SearchArea) (dt : ℚ)
    (h : uav.currentWaypointIndex.getD 0 < area.bounds.length) :
    (searchingStep geo uav area dt).battery = max 0 (uav.battery - (1/10) * dt) := by
  unfold searchingStep
  simp only [h, if_true]

/-- With the (initialized) waypoint index at or past the end of the bounds
list, the searching branch leaves the battery unchanged. -/
theorem searchingStep_battery_frame (geo : Geo) (uav : UAV) (area : SearchArea) (dt : ℚ)
    (h : ¬ uav.currentWaypointIndex.getD 0 < area.bounds.length) :
    (searchingStep geo uav area dt).battery = uav.battery := by
  unfold searchingStep
  simp only [h, if_false]

/-- The returning branch drains at the returning rate when a start
position is present, and leaves the battery alone otherwise. -/
theorem returningStep_battery (geo : Geo) (uav : UAV) (dt : ℚ) :
    (returningStep geo uav dt).battery = uav.battery ∨
    (returningStep geo uav dt).battery = max 0 (uav.battery - (8/100) * dt) := by
  unfold returningStep
  cases hsp : uav.startPosition with
  | none => left; rfl
  | some sp =>
    right
    by_cases h : geo.calculateDistance uav.position sp < 20
    · simp only [h, if_true]
    · simp only [h, if_false]

/-- With a start position present, the returning branch drains the
battery at the returning rate. -/
theorem returningStep_battery_drain (geo : Geo) (uav : UAV) (dt : ℚ) (sp : Pos)
    (hsp : uav.startPosition = some sp) :
    (returningStep geo uav dt).battery = max 0 (uav.battery - (8/100) * dt) := by
  unfold returningStep
  rw [hsp]
  by_cases h : geo.calculateDistance uav.position sp < 20
  · simp only [h, if_true]
  · simp only [h, if_false]

/-- The idle branch drains the battery at the idle rate. -/
theorem idleStep_battery (uav : UAV) (dt : ℚ) :
    (idleStep uav dt).battery = max 0 (uav.battery - (1/100) * dt) := rfl

/-! Claim theorems. -/

/-- C1: for every vehicle with `isOnline = true` and battery in `[0, 100]`,
every route and every `deltaTime > 0`, the vehicle returned by
`updateUAVState` has a battery that is no larger than before and still
nonnegative. -/
theorem c1_battery_monotone (geo : Geo) (uav : UAV) (area : Option SearchArea) (dt : ℚ)
    (hon : uav.isOnline = true) (hb0 : 0 ≤ uav.battery) (hb1 : uav.battery ≤ 100)
    (hdt : 0 < dt) :
    (updateUAVState geo uav area dt).1.battery ≤ uav.battery ∧
    0 ≤ (updateUAVState geo uav area dt).1.battery := by
  unfold updateUAVState tickBody
  split_ifs with h1 h2 h3 h4 h5
  · exact ⟨le_refl _, hb0⟩
  · exact ⟨le_refl _, hb0⟩
  · -- searching: with or without a search area
    cases area with
    | none => exact ⟨le_refl _, hb0⟩
    | some a =>
      rcases searchingStep_battery geo uav a dt with h | h <;> rw [h]
      · exact ⟨le_refl _, hb0⟩
      · exact ⟨max_drain_le _ _ hb0 (by linarith), max_drain_nonneg _ _⟩
  · -- returning
    rcases returningStep_battery geo uav dt with h | h <;> rw [h]
    · exact ⟨le_refl _, hb0⟩
    · exact ⟨max_drain_le _ _ hb0 (by linarith), max_drain_nonneg _ _⟩
  · -- idle
    rw [idleStep_battery]
    exact ⟨max_drain_le _ _ hb0 (by linarith), max_drain_nonneg _ _⟩
  · exact ⟨le_refl _, hb0⟩

/-- C1 witness: the theorem applied to a concrete online searching vehicle
with battery 100 and one tick of one second. -/
theorem c1_battery_monotone_witness :
    baseUAV.isOnline = true ∧
    (updateUAVState geoZero baseUAV none 1).1.battery ≤ baseUAV.battery ∧
    0 ≤ (updateUAVState geoZero baseUAV none 1).1.battery :=
  ⟨rfl, c1_battery_monotone geoZero baseUAV none 1 rfl (by norm_num [baseUAV])
    (by norm_num [baseUAV]) (by norm_num)⟩

/-- C9: a vehicle that is offline (`isOnline = false` or `status` offline)
or not mock is returned by `updateUAVState` with every field unchanged. -/
theorem c9_offline_frame (geo : Geo) (uav : UAV) (area : Option SearchArea) (dt : ℚ)
    (h : uav.isOnline = false ∨ uav.status = Status.offline ∨ uav.isMock = false) :
    (updateUAVState geo uav area dt).1 = uav := by
  unfold updateUAVState
  rcases h with h | h | h
  · simp [h]
  · simp [h]
  · by_cases h1 : uav.isOnline = false ∨ uav.status = Status.offline
    · simp [h1]
    · simp [h1, h]

/-- C9 witness: the theorem applied to a concrete vehicle with
`isOnline = false`. -/
theorem c9_offline_frame_witness :
    { baseUAV with isOnline := false }.isOnline = false ∧
    (updateUAVState geoZero { baseUAV with isOnline := false } none 1).1 =
      { baseUAV with isOnline := false } :=
  ⟨rfl, c9_offline_frame geoZero { baseUAV with isOnline := false } none 1 (Or.inl rfl)⟩

/-- C10: `updateUAVState` never changes the route argument: the search
area threaded through the tick comes out identical (in particular its
`bounds`, `status` and `assignedVehicle` fields), for every input. -/
theorem c10_route_frame (geo : Geo) (uav : UAV) (area : Option SearchArea) (dt : ℚ) :
    (updateUAVState geo uav area dt).2 = area := by
  unfold updateUAVState tickBody
  split_ifs <;> first | rfl | (cases area <;> rfl)

/-- C3: an online mock searching vehicle with a defined waypoint index
inside the bounds list and within 20 meters of its current waypoint has,
after one tick, its index advanced by one and its position unchanged. -/
theorem c3_waypoint_advance (geo : Geo) (uav : UAV) (area : SearchArea) (dt : ℚ)
    (hon : uav.isOnline = true) (hmock : uav.isMock = true)
    (hst : uav.status = Status.searching)
    (i : ℕ) (hidx : uav.currentWaypointIndex = some i) (hi : i < area.bounds.length)
    (hnear : geo.calculateDistance uav.position (area.bounds.getD i defaultPos) < 20) :
    (updateUAVState geo uav (some area) dt).1.currentWaypointIndex = some (i + 1) ∧
    (updateUAVState geo uav (some area) dt).1.position = uav.position := by
  rw [List.getD_eq_getElem _ _ hi] at hnear
  have hfar : ¬ 20 ≤ geo.calculateDistance uav.position area.bounds[i] := not_le.mpr hnear
  unfold updateUAVState tickBody searchingStep
  simp [hon, hmock, hst, hidx, hi, hnear, hfar]

/-- C4: an online mock returning vehicle within 20 meters of its stored
start position snaps exactly onto it in one tick, with speed 0,
altitude 0 and mode idle. -/
theorem c4_return_snap (geo : Geo) (uav : UAV) (area : Option SearchArea) (dt : ℚ)
    (hon : uav.isOnline = true) (hmock : uav.isMock = true)
    (hst : uav.status = Status.returning)
    (sp : Pos) (hsp : uav.startPosition = some sp)
    (hnear : geo.calculateDistance uav.position sp < 20) :
    (updateUAVState geo uav area dt).1.position = sp ∧
    (updateUAVState geo uav area dt).1.speed = 0 ∧
    (updateUAVState geo uav area dt).1.altitude = 0 ∧
    (updateUAVState geo uav area dt).1.status = Status.idle := by
  unfold updateUAVState tickBody returningStep
  simp [hon, hmock, hst, hsp, hnear]

/-- C2 (amended): the transition to returning happens on the tick that
advances the index past the end: an online mock searching vehicle at the
last waypoint (index `bounds.length - 1`, within 20 meters of it) leaves
the tick in mode returning with its index equal to `bounds.length`. -/
theorem c2_mission_complete (geo : Geo) (uav : UAV) (area : SearchArea) (dt : ℚ)
    (hon : uav.isOnline = true) (hmock : uav.isMock = true)
    (hst : uav.status = Status.searching)
    (i : ℕ) (hidx : uav.currentWaypointIndex = some i)
    (hlen : i + 1 = area.bounds.length)
    (hnear : geo.calculateDistance uav.position (area.bounds.getD i defaultPos) < 20) :
    (updateUAVState geo uav (some area) dt).1.status = Status.returning ∧
    (updateUAVState geo uav (some area) dt).1.currentWaypointIndex =
      some area.bounds.length := by
  have hi : i < area.bounds.length := by omega
  have hle : area.bounds.length ≤ i + 1 := by omega
  rw [List.getD_eq_getElem _ _ hi] at hnear
  have hfar : ¬ 20 ≤ geo.calculateDistance uav.position area.bounds[i] := not_le.mpr hnear
  unfold updateUAVState tickBody searchingStep
  simp [hon, hmock, hst, hidx, hi, hnear, hfar, hle, hlen]

/-- A one-waypoint active route used by concrete scenarios. -/
def oneWaypointArea : SearchArea :=
  { bounds := [⟨0, 1/10000⟩], status := RouteStatus.active, assignedVehicle := some 0 }

/-- C3 witness: the theorem applied to a concrete searching vehicle at
index 0 of a one-waypoint route, with the constant-zero distance. -/
theorem c3_waypoint_advance_witness :
    (updateUAVState geoZero { baseUAV with currentWaypointIndex := some 0 }
      (some oneWaypointArea) 1).1.currentWaypointIndex = some 1 ∧
    (updateUAVState geoZero { baseUAV with currentWaypointIndex := some 0 }
      (some oneWaypointArea) 1).1.position =
      { baseUAV with currentWaypointIndex := some 0 }.position :=
  c3_waypoint_advance geoZero { baseUAV with currentWaypointIndex := some 0 }
    oneWaypointArea 1 rfl rfl rfl 0 rfl (by norm_num [oneWaypointArea])
    (by norm_num [geoZero])

/-- C2 witness: the amended theorem applied to a concrete searching
vehicle at the last (only) waypoint of a one-waypoint route. -/
theorem c2_mission_complete_witness :
    (updateUAVState geoZero { baseUAV with currentWaypointIndex := some 0 }
      (some oneWaypointArea) 1).1.status = Status.returning ∧
    (updateUAVState geoZero { baseUAV with currentWaypointIndex := some 0 }
      (some oneWaypointArea) 1).1.currentWaypointIndex =
      some oneWaypointArea.bounds.length :=
  c2_mission_complete geoZero { baseUAV with currentWaypointIndex := some 0 }
    oneWaypointArea 1 rfl rfl rfl 0 rfl (by norm_num [oneWaypointArea])
    (by norm_num [geoZero])

/-- C4 witness: the theorem applied to a concrete returning vehicle whose
start position is stored, with the constant-zero distance. -/
theorem c4_return_snap_witness :
    (updateUAVState geoZero
      { baseUAV with status := Status.returning, startPosition := some ⟨0, 0⟩ }
      none 1).1.position = (⟨0, 0⟩ : Pos) ∧
    (updateUAVState geoZero
      { baseUAV with status := Status.returning, startPosition := some ⟨0, 0⟩ }
      none 1).1.speed = 0 ∧
    (updateUAVState geoZero
      { baseUAV with status := Status.returning, startPosition := some ⟨0, 0⟩ }
      none 1).1.altitude = 0 ∧
    (updateUAVState geoZero
      { baseUAV with status := Status.returning, startPosition := some ⟨0, 0⟩ }
      none 1).1.status = Status.idle :=
  c4_return_snap geoZero
    { baseUAV with status := Status.returning, startPosition := some ⟨0, 0⟩ }
    none 1 rfl rfl rfl ⟨0, 0⟩ rfl (by norm_num [geoZero])

/-- C2 counterexample: an online mock searching vehicle that enters the
tick with its waypoint index already equal to the length of the non-empty
bounds list stays in mode searching; the claimed transition to returning
does not happen on that tick. -/
theorem c2_counterexample :
    { baseUAV with currentWaypointIndex := some 1 }.isOnline = true ∧
    { baseUAV with currentWaypointIndex := some 1 }.isMock = true ∧
    { baseUAV with currentWaypointIndex := some 1 }.status = Status.searching ∧
    { baseUAV with currentWaypointIndex := some 1 }.currentWaypointIndex =
      some oneWaypointArea.bounds.length ∧
    (updateUAVState geoZero { baseUAV with currentWaypointIndex := some 1 }
      (some oneWaypointArea) 1).1.status = Status.searching := by
  refine ⟨rfl, rfl, rfl, by norm_num [oneWaypointArea], ?_⟩
  decide

/-- C8 (amended): for an online mock vehicle with positive battery and a
positive time step, one tick strictly decreases the battery (floored at
zero) in mode idle; in mode searching provided a search area is given
whose bounds list the (initialized) waypoint index indexes into; and in
mode returning provided a start position is stored.  The counterexample
shows the drain does not happen for a searching vehicle without a
route. -/
theorem c8_battery_strict_drain (geo : Geo) (uav : UAV) (area : Option SearchArea) (dt : ℚ)
    (hon : uav.isOnline = true) (hmock : uav.isMock = true)
    (hb : 0 < uav.battery) (hdt : 0 < dt) :
    (uav.status = Status.idle → (updateUAVState geo uav area dt).1.battery < uav.battery) ∧
    (∀ a, uav.status = Status.searching → area = some a →
      uav.currentWaypointIndex.getD 0 < a.bounds.length →
      (updateUAVState geo uav area dt).1.battery < uav.battery) ∧
    (∀ sp, uav.status = Status.returning → uav.startPosition = some sp →
      (updateUAVState geo uav area dt).1.battery < uav.battery) := by
  refine ⟨?_, ?_, ?_⟩
  · intro hst
    unfold updateUAVState tickBody
    simp only [hon, hmock, hst, eq_false (by decide : ¬ Status.idle = Status.offline),
      eq_false (by decide : ¬ Status.idle = Status.searching),
      eq_false (by decide : ¬ Status.idle = Status.returning),
      eq_false (by decide : ¬ (true : Bool) = false), or_self, if_false, if_true,
      eq_self_iff_true]
    rw [idleStep_battery]
    exact max_drain_lt _ _ hb (by linarith)
  · intro a hst harea hlt
    subst harea
    unfold updateUAVState tickBody
    simp only [hon, hmock, hst, eq_false (by decide : ¬ Status.searching = Status.offline),
      eq_false (by decide : ¬ (true : Bool) = false), or_self, if_false, if_true,
      eq_self_iff_true]
    rw [searchingStep_battery_drain geo uav a dt hlt]
    exact max_drain_lt _ _ hb (by linarith)
  · intro sp hst hsp
    unfold updateUAVState tickBody
    simp only [hon, hmock, hst, eq_false (by decide : ¬ Status.returning = Status.offline),
      eq_false (by decide : ¬ Status.returning = Status.searching),
      eq_false (by decide : ¬ (true : Bool) = false), or_self, if_false, if_true,
      eq_self_iff_true]
    rw [returningStep_battery_drain geo uav dt sp hsp]
    exact max_drain_lt _ _ hb (by linarith)

/-- C8 witness: the theorem applied in its idle case to a concrete idle
vehicle with battery 100 and a one second tick. -/
theorem c8_battery_strict_drain_witness :
    (updateUAVState geoZero { baseUAV with status := Status.idle } none 1).1.battery <
      { baseUAV with status := Status.idle }.battery :=
  (c8_battery_strict_drain geoZero { baseUAV with status := Status.idle } none 1
    rfl rfl (by norm_num [baseUAV]) (by norm_num)).1 rfl

/-- C8 counterexample: an online mock searching vehicle with positive
battery and no assigned route keeps its battery unchanged over a tick of
one second, against the claim that the battery strictly decreases
regardless of whether a route is assigned. -/
theorem c8_counterexample :
    baseUAV.isOnline = true ∧ baseUAV.isMock = true ∧
    baseUAV.status = Status.searching ∧ (0 : ℚ) < baseUAV.battery ∧
    (updateUAVState geoZero baseUAV none 1).1.battery = baseUAV.battery := by
  refine ⟨rfl, rfl, rfl, by norm_num [baseUAV], rfl⟩

/-- C5: `getCoverageRadius` diverges from the spec's
`max(altitude * 0.5, 25)`: at altitude 10 the code returns 5 because the
JavaScript `||` only substitutes 25 when `altitude * 0.5` is zero, while
the specified floor gives 25. -/
theorem c5_coverage_radius_bug :
    getCoverageRadius 10 = 5 ∧ footprintRadiusSpec 10 = 25 ∧
    getCoverageRadius 10 ≠ footprintRadiusSpec 10 := by
  refine ⟨by norm_num [getCoverageRadius, jsOr], ?_, ?_⟩
  · rw [footprintRadiusSpec]
    norm_num
  · rw [getCoverageRadius, footprintRadiusSpec, jsOr]
    norm_num

/-- A two-waypoint active route used by the coverage scenario. -/
def twoWaypointArea : SearchArea :=
  { bounds := [⟨0, 0⟩, ⟨0, 1⟩], status := RouteStatus.active, assignedVehicle := some 0 }

/-- A searching vehicle at altitude 10 that has passed its first waypoint
and whose last coverage sample is seven meters away under `geoSeven`. -/
def c6uav : UAV :=
  { baseUAV with
    currentWaypointIndex := some 1
    altitude := 10
    targetAltitude := 10
    coveragePoints := [⟨⟨1, 1⟩, 10⟩] }

/-- C6: at altitude 10 the code's sample spacing is
`getCoverageRadius(10) * 2 * 0.7 = 7` meters instead of the spec's
`max(10 * 0.5, 25) * 2 * 0.7 = 35`, so one tick records a new coverage
sample only seven meters from the previous one: two consecutive samples
end up closer than the claimed minimum spacing. -/
theorem c6_coverage_spacing_bug :
    getCoverageRadius 10 * 2 * (7/10) = 7 ∧
    footprintRadiusSpec 10 * 2 * (7/10) = 35 ∧
    geoSeven.calculateDistance c6uav.position (⟨1, 1⟩ : Pos) = 7 ∧
    (updateUAVState geoSeven c6uav (some twoWaypointArea) 1).1.coveragePoints =
      [⟨⟨1, 1⟩, 10⟩, ⟨⟨0, 0⟩, 10⟩] := by
  refine ⟨by norm_num [getCoverageRadius, jsOr], by rw [footprintRadiusSpec]; norm_num,
    by norm_num [geoSeven, c6uav, baseUAV], ?_⟩
  unfold updateUAVState tickBody searchingStep
  norm_num [c6uav, baseUAV, twoWaypointArea, geoSeven, getCoverageRadius, jsOr, defaultPos,
    eq_false (by decide : ¬ Status.searching = Status.offline),
    eq_false (by decide : ¬ (true : Bool) = false)]

/-- A three-waypoint active route used by the altitude-history scenario. -/
def threeWaypointArea : SearchArea :=
  { bounds := [⟨0, 0⟩, ⟨0, 1⟩, ⟨0, 2⟩], status := RouteStatus.active, assignedVehicle := some 0 }

/-- A searching vehicle at its target altitude, on its second tick of the
mission (sample counter already 0 from the first tick). -/
def c7uav : UAV :=
  { baseUAV with
    currentWaypointIndex := some 0
    altitude := 80
    targetAltitude := 80 }

/-- C7: the sample counter check `!uav.altitudeHistorySampleCounter`
treats 0 as falsy, so the counter is reset to 0 on every tick instead of
counting up, and an altitude sample is appended on every tick: two
consecutive ticks grow `altitudeHistory` from empty to one and then two
entries, against the claimed every-5th-tick sampling. -/
theorem c7_altitude_history_bug :
    c7uav.altitudeHistory = [] ∧
    (updateUAVState geoZero c7uav (some threeWaypointArea) 1).1.altitudeHistorySampleCounter
      = 0 ∧
    (updateUAVState geoZero c7uav (some threeWaypointArea) 1).1.altitudeHistory = [80] ∧
    (updateUAVState geoZero
        (updateUAVState geoZero c7uav (some threeWaypointArea) 1).1
        (some threeWaypointArea) 1).1.altitudeHistory = [80, 80] := by
  refine ⟨rfl, ?_, ?_, ?_⟩ <;>
  · unfold updateUAVState tickBody searchingStep
    norm_num [c7uav, baseUAV, threeWaypointArea, geoZero, getCoverageRadius, jsOr, defaultPos,
      eq_false (by decide : ¬ Status.searching = Status.offline),
      eq_false (by decide : ¬ (true : Bool) = false)]
